import Mathlib

/-!
Shallow embedding of the PyQtMessageBar core state machine
(src/pyqtmessagebar/__init__.py, class PyQtMessageBar).

Modelling conventions:
- Python ints are Lean `Int` (Python ints are unbounded; no overflow).
- The mutable object state (`self`) is a `Bar` record, threaded explicitly.
- Methods that can raise an uncaught Python exception (list.pop / list
  indexing out of range) return `Option Bar`; `none` models the exception.
- Qt timer handles are modelled by Booleans recording whether the timer is
  pending: `timer` for `self._timer`, `progress_timer` for
  `self._timer_progressbar_update`, `zero_timer` for
  `self._process_zero_timeout_timer`.  The firing of a single-shot timer is
  an explicit event (`msg_timeout_fired`), as in the source where the Qt
  event loop re-enters `_msg_timeout_fired`.
- `datetime.now()` is nondeterministic, so the timestamp is passed as an
  explicit argument to the operations that buffer an entry.
- Rendering side effects that the spec treats as outbound notifications are
  recorded in an `events` log: `Ev.cleared` is appended whenever
  `clearMessage` actually removes a displayed widget (the spec's onClear),
  and `Ev.wqEmptied` whenever `self._timer_wait_q_emptied_signal.empty()`
  is called (the spec's onWaitQueueEmptied).  Pure label updates
  (`_update_msg_idx_label`, `_clear_msg_idx_label`) and style application
  (`_format_text`) are rendering-only and are not modelled.
-/

/-- A message as submitted: the tuple (msg, timeout, fg, bg, bold) that the
source passes around before a timestamp is attached. -/
structure Entry where
  msg : String
  timeout : Int
  fg : Option String
  bg : Option String
  bold : Bool
deriving DecidableEq

/-- A buffered message: the tuple (msg, timeout, fg, bg, bold, timestamp)
stored in `self._bufferd_msgs`. -/
structure BufEntry where
  msg : String
  timeout : Int
  fg : Option String
  bg : Option String
  bold : Bool
  timestamp : String
deriving DecidableEq

/-- Outbound notifications recorded by the model: `cleared` models the
removal of the displayed widget in `clearMessage` (spec: onClear);
`wqEmptied` models `self._timer_wait_q_emptied_signal.empty()`
(spec: onWaitQueueEmptied). -/
inductive Ev where
  | cleared
  | wqEmptied
deriving DecidableEq

/-- The mutable state of a PyQtMessageBar instance (the fields of `self`
that the core state machine reads or writes). `widget` is the text of the
currently displayed QLabel (`self._widget`), `none` when nothing is
displayed. `has_signal` records whether a
`timer_wait_q_emptied_signal` object was supplied at construction. -/
structure Bar where
  buffer_size : Int
  displayed_msg_idx : Int
  buf_page_size : Int
  bufferd_msgs : List BufEntry
  timer : Bool
  progress_timer : Bool
  zero_timer : Bool
  timer_wait_q : List Entry
  widget : Option String
  has_signal : Bool
  events : List Ev
deriving DecidableEq

/-- DEFAULT_BUFFER_SIZE = 100 (source comment: "Message Queue can never get
smaller than this"). -/
def DEFAULT_BUFFER_SIZE : Int := 100

/-- DEFAULT_PAGE_SIZE = 10, used by PageUp / PageDown. -/
def DEFAULT_PAGE_SIZE : Int := 10

/-- PyQtMessageBar.__init__: stores `msg_buffer_size` into
`self._buffer_size` unchanged (no clamping occurs in the constructor),
sets `_displayed_msg_idx = -1`, `_buf_page_size = DEFAULT_PAGE_SIZE`,
empty message buffer, no timers, empty wait queue, nothing displayed. -/
def init (msg_buffer_size : Int) (has_signal : Bool) : Bar :=
  { buffer_size := msg_buffer_size
    displayed_msg_idx := -1
    buf_page_size := DEFAULT_PAGE_SIZE
    bufferd_msgs := []
    timer := false
    progress_timer := false
    zero_timer := false
    timer_wait_q := []
    widget := none
    has_signal := has_signal
    events := [] }

/-- getBufferSize: returns `self._buffer_size`. -/
def getBufferSize (s : Bar) : Int := s.buffer_size

/-- Python `l[i]` on a list: negative indices count from the end; an index
out of range raises IndexError, modelled as `none`. -/
def pyGet {α : Type} (l : List α) (i : Int) : Option α :=
  let j := if i < 0 then i + l.length else i
  if 0 ≤ j then l.get? j.toNat else none

/-- Python `l.pop(i)`: returns the removed element and the remaining list;
negative indices count from the end; out of range (including pop from an
empty list) raises IndexError, modelled as `none`. -/
def popAt {α : Type} (l : List α) (i : Int) : Option (α × List α) :=
  let j := if i < 0 then i + l.length else i
  if 0 ≤ j then
    match l.get? j.toNat with
    | some a => some (a, l.eraseIdx j.toNat)
    | none => none
  else none

/-- clearMessage: if a message widget is currently displayed, remove it
(`self._widget = None`); the removal is recorded as an `Ev.cleared` event
(spec: onClear). If nothing is displayed, no effect. -/
def clearMessage (s : Bar) : Bar :=
  match s.widget with
  | some _ => { s with widget := none, events := s.events ++ [Ev.cleared] }
  | none => s

/-- currentMessage: text of the displayed widget, or the empty string if
nothing is displayed. -/
def currentMessage (s : Bar) : String :=
  match s.widget with
  | some m => m
  | none => ""

/-- waitQueueIsEmpty: `self._timer_wait_q.empty()`. -/
def waitQueueIsEmpty (s : Bar) : Bool := s.timer_wait_q = []

/-- getWaitQueueDepth: 0 when empty, else the queue size. -/
def getWaitQueueDepth (s : Bar) : Int := s.timer_wait_q.length

/-- buffer_entry (source `_buffer_entry`): if
`self._displayed_msg_idx >= self._buffer_size - 1`, pop index 0 of
`self._bufferd_msgs` first (pop on an empty list raises, hence `none`);
then append (msg, timeout, fg, bg, bold, timestamp) and increment
`self._displayed_msg_idx` (the increment is unconditional in the source). -/
def buffer_entry (s : Bar) (e : Entry) (ts : String) : Option Bar :=
  let newb : BufEntry := ⟨e.msg, e.timeout, e.fg, e.bg, e.bold, ts⟩
  if s.displayed_msg_idx ≥ s.buffer_size - 1 then
    match popAt s.bufferd_msgs 0 with
    | some (_, rest) =>
        some { s with bufferd_msgs := rest ++ [newb]
                      displayed_msg_idx := s.displayed_msg_idx + 1 }
    | none => none
  else
    some { s with bufferd_msgs := s.bufferd_msgs ++ [newb]
                  displayed_msg_idx := s.displayed_msg_idx + 1 }

/-- buffer_this_entry (source `_buffer_this_entry`): clear the displayed
message, create and display a new QLabel for `msg`; if `timeout > 0` and no
timer is pending, start the one-shot timer (and the 1-second progress
ticker when `timeout > 2000`); if `timeout > 0` and a timer is pending,
put the entry on the wait queue; if `timeout == 0`, start the fixed
1500 ms zero-timeout single-shot timer.  Finally `_buffer_entry` the tuple
and add the widget. -/
def buffer_this_entry (s : Bar) (e : Entry) (ts : String) : Option Bar :=
  let s1 := clearMessage s
  let s2 := { s1 with widget := some e.msg }
  let s3 :=
    if e.timeout > 0 then
      if s2.timer = false then
        let s2a := if e.timeout > 2000 then { s2 with progress_timer := true } else s2
        { s2a with timer := true }
      else
        { s2 with timer_wait_q := s2.timer_wait_q ++ [e] }
    else
      { s2 with zero_timer := true }
  buffer_entry s3 e ts

/-- enqueue_to_wait_q (source `_enqueue_to_wait_q`): put
(msg, timeout, fg, bg, bold) on `self._timer_wait_q`. -/
def enqueue_to_wait_q (s : Bar) (e : Entry) : Bar :=
  { s with timer_wait_q := s.timer_wait_q ++ [e] }

/-- msg_timeout_fired (source `_msg_timeout_fired`): stop the progress
ticker if any, set `self._timer = None`; if the wait queue is non-empty,
dequeue the oldest entry and `_buffer_this_entry` it, then, if the queue is
now empty and a signal was configured, call `.empty()` on it (recorded as
`Ev.wqEmptied`); otherwise, if `timed_msg`, clear the displayed message
(a zero-timeout firing with an empty queue clears nothing). -/
def msg_timeout_fired (s : Bar) (timed_msg : Bool) (ts : String) : Option Bar :=
  let s1 := if s.progress_timer then { s with progress_timer := false } else s
  let s2 := { s1 with timer := false }
  match s2.timer_wait_q with
  | me :: rest =>
      match buffer_this_entry { s2 with timer_wait_q := rest } me ts with
      | some s3 =>
          if s3.timer_wait_q = [] then
            if s3.has_signal then
              some { s3 with events := s3.events ++ [Ev.wqEmptied] }
            else some s3
          else some s3
      | none => none
  | [] =>
      if timed_msg then some (clearMessage s2) else some s2

/-- pad: the source pads every message with a single leading space at the
top of showMessage. -/
def pad (m : String) : String := " " ++ m

/-- showMessageBody: the body of showMessage after the padding line.  If a
widget is displayed and a timer is pending, enqueue the entry to the wait
queue and return; otherwise, if the wait queue is empty,
`_buffer_this_entry` the entry, else enqueue it. -/
def showMessageBody (s : Bar) (e : Entry) (ts : String) : Option Bar :=
  if s.widget.isSome ∧ s.timer then some (enqueue_to_wait_q s e)
  else if s.timer_wait_q = [] then buffer_this_entry s e ts
  else some (enqueue_to_wait_q s e)

/-- showMessage: pads `msg` with a leading space, then runs the body. -/
def showMessage (s : Bar) (msg : String) (timeout : Int) (fg bg : Option String)
    (bold : Bool) (ts : String) : Option Bar :=
  showMessageBody s ⟨pad msg, timeout, fg, bg, bold⟩ ts

/-- resolve_idx: the cursor-resolution logic of `_move_viewport` for a
non-empty buffer of length `n`, page size `ps`, current index `i` and move
`delta`: four special page cases checked in order, then
`i + delta` with two sequential wrap checks. -/
def resolve_idx (n ps i delta : Int) : Int :=
  if i = 0 ∧ delta = -ps then n - 1
  else if i = n - 1 ∧ delta = ps then 0
  else if i < ps ∧ delta = -ps then 0
  else if i > n - 1 - ps ∧ delta = ps then n - 1
  else
    let j := i + delta
    let j2 := if j < 0 then n - 1 else j
    if j2 > n - 1 then 0 else j2

/-- display_viewport (source `_display_viewport`): clear the displayed
message, read the entry at `self._displayed_msg_idx` (list indexing; out of
range raises, hence `none`) and display its text, ignoring its timeout. -/
def display_viewport (s : Bar) : Option Bar :=
  let s1 := clearMessage s
  match pyGet s1.bufferd_msgs s1.displayed_msg_idx with
  | some e => some { s1 with widget := some e.msg }
  | none => none

/-- move_viewport (source `_move_viewport`): on an empty buffer set the
cursor to -1 and do nothing else; otherwise resolve the cursor with the
wrap and page rules and re-display the entry at the resolved cursor. -/
def move_viewport (s : Bar) (delta : Int) : Option Bar :=
  if s.bufferd_msgs.length = 0 then
    some { s with displayed_msg_idx := -1 }
  else
    display_viewport
      { s with displayed_msg_idx :=
          resolve_idx s.bufferd_msgs.length s.buf_page_size s.displayed_msg_idx delta }

/-- Key_Up handler: delta is -1 only if a widget is displayed, else 0. -/
def key_up (s : Bar) : Option Bar :=
  move_viewport s (if s.widget.isSome then -1 else 0)

/-- Key_Down handler: delta = 1. -/
def key_down (s : Bar) : Option Bar := move_viewport s 1

/-- Key_PageUp handler: delta = -page_size. -/
def key_page_up (s : Bar) : Option Bar := move_viewport s (-s.buf_page_size)

/-- Key_PageDown handler: delta = page_size. -/
def key_page_down (s : Bar) : Option Bar := move_viewport s s.buf_page_size

/-- Key_Home handler: set the cursor to 0, then move by 0. -/
def key_home (s : Bar) : Option Bar :=
  move_viewport { s with displayed_msg_idx := 0 } 0

/-- Key_End handler: set the cursor to len-1, then move by 0. -/
def key_end (s : Bar) : Option Bar :=
  move_viewport { s with displayed_msg_idx := (s.bufferd_msgs.length : Int) - 1 } 0

/-- control-alt-shift-X handler (delete all): set the cursor to -1, clear
`self._bufferd_msgs`, and clearMessage. Neither the wait queue nor any
timer field is touched. -/
def delete_all (s : Bar) : Bar :=
  clearMessage { s with displayed_msg_idx := -1, bufferd_msgs := [] }

/-- control-alt-X handler (delete current):
`self._bufferd_msgs.pop(self._displayed_msg_idx)` (which raises IndexError
when the index is out of range, e.g. pop(-1) on an empty buffer), then
`_move_viewport(0)`. -/
def delete_current (s : Bar) : Option Bar :=
  match popAt s.bufferd_msgs s.displayed_msg_idx with
  | some (_, rest) => move_viewport { s with bufferd_msgs := rest } 0
  | none => none

/-- Zero-pad a decimal string to width `w`, as Python field formatting
with a 0 fill does for the non-negative indices used by the exporter. -/
def zfill (w : Nat) (str : String) : String :=
  String.mk (List.replicate (w - str.length) '0') ++ str

/-- Python str() of an optional color: None prints as "None". -/
def fmtOpt (o : Option String) : String :=
  match o with
  | some c => c
  | none => "None"

/-- Python str() of a bool: "True" or "False". -/
def fmtBool (b : Bool) : String := if b then "True" else "False"

/-- Everything of an exported line before the message text:
the zero-padded index followed by ": ". -/
def linePre (w : Nat) (idx : Nat) : String :=
  zfill w (toString idx) ++ ": "

/-- Everything of an exported line after the message text. -/
def lineSuf (e : BufEntry) : String :=
  " " ++ toString e.timeout ++ " msecs FG:" ++ fmtOpt e.fg ++ " BG:" ++ fmtOpt e.bg
    ++ " BOLD:" ++ fmtBool e.bold ++ " @ " ++ e.timestamp ++ "\n"

/-- One exported line (source `_save_message_buffer_to_file` loop body). -/
def mkLine (w : Nat) (idx : Nat) (e : BufEntry) : String :=
  linePre w idx ++ e.msg ++ lineSuf e

/-- save_message_buffer_lines (source `_save_message_buffer_to_file`):
the sequence of lines written to the file, one per buffered entry, with
zero-padded sequential indices of width `len(str(len(buffer))) + 1`. -/
def save_message_buffer_lines (s : Bar) : List String :=
  let w := (toString s.bufferd_msgs.length).length + 1
  s.bufferd_msgs.enum.map (fun p => mkLine w p.1 p.2)

/-- Submit a message with default colors and bold, on an optional state
(chaining showMessage calls through the possibility of an exception). -/
def subm (s : Option Bar) (m : String) (t : Int) (ts : String) : Option Bar :=
  s.bind (fun x => showMessage x m t none none false ts)

/-- A concrete run: a bar constructed with msg_buffer_size 2, two messages
submitted (filling the buffer to its capacity), then the Home key, then a
third submission. -/
def c1_trace : Option Bar :=
  subm ((subm (subm (some (init 2 false)) "a" 0 "t1") "b" 0 "t2").bind key_home) "c" 0 "t3"

/-- A concrete run: a bar constructed with msg_buffer_size 2 and three
messages submitted, exceeding the capacity once. -/
def c4_trace : Option Bar :=
  subm (subm (subm (some (init 2 false)) "a" 0 "t1") "b" 0 "t2") "c" 0 "t3"

/-- A concrete run: a bar constructed with msg_buffer_size 5 (below the
built-in minimum of 100) and six messages submitted. -/
def c5_trace : Option Bar :=
  subm (subm (subm (subm (subm (subm (some (init 5 false))
    "a" 0 "t1") "b" 0 "t2") "c" 0 "t3") "d" 0 "t4") "e" 0 "t5") "f" 0 "t6"

/-- A concrete state with two buffered messages but a cursor of 5, used to
exercise a delete at an index outside the buffer range. -/
def c6_state : Bar :=
  { init 100 false with
      bufferd_msgs := [⟨" a", 0, none, none, false, "t1"⟩, ⟨" b", 0, none, none, false, "t2"⟩]
      displayed_msg_idx := 1
      widget := some " b" }

/-- The state directly after submitting a zero-timeout message "x" to a
fresh bar: the padded message " x" is displayed, the fixed 1500 ms
zero-timeout timer is pending, the main timer is not, and the wait queue is
empty (the scheduler state the spec calls ActiveZeroTimeout). -/
def zstate : Bar :=
  (showMessage (init 100 false) "x" 0 none none false "t0").getD (init 100 false)

/-- The state directly after submitting a 5000 ms timed message "a" to a
fresh bar: " a" is displayed and the one-shot timer is pending (the
scheduler state the spec calls ActiveTimed). -/
def tstate : Bar :=
  (showMessage (init 100 false) "a" 5000 none none false "t0").getD (init 100 false)

/-- A concrete state with five buffered messages and the cursor at 0. -/
def c7state : Bar :=
  { init 100 false with
      bufferd_msgs := [⟨" m1", 0, none, none, false, "t1"⟩, ⟨" m2", 0, none, none, false, "t2"⟩,
        ⟨" m3", 0, none, none, false, "t3"⟩, ⟨" m4", 0, none, none, false, "t4"⟩,
        ⟨" m5", 0, none, none, false, "t5"⟩]
      displayed_msg_idx := 0
      widget := some " m1" }

/-- A concrete state with a timed message " a" displayed, its timer
pending, one entry " b" on the wait queue, and a wait-queue-emptied signal
configured. -/
def c9state : Bar :=
  { init 100 true with
      widget := some " a"
      timer := true
      bufferd_msgs := [⟨" a", 3000, none, none, false, "t0"⟩]
      displayed_msg_idx := 0
      timer_wait_q := [⟨" b", 3000, none, none, false⟩] }

/-- The state directly after submitting "hello" with timeout 0 to a fresh
bar. -/
def c10w : Bar :=
  (showMessage (init 100 false) "hello" 0 none none false "tw").getD (init 100 false)

/-- Modelled from the spec side for comparison (claim C7): the cursor
resolution rules exactly as the claim states them, checked in order:
(1) cursor 0 and delta -page gives len-1; (2) cursor len-1 and delta +page
gives 0; (3) cursor below page gives 0 on -page; (4) cursor within a page
of the end gives len-1 on +page; (5) otherwise cursor+delta, wrapping to
len-1 below 0 and to 0 above len-1. -/
def cursorSpec (n ps i delta : Int) : Int :=
  if i = 0 ∧ delta = -ps then n - 1
  else if i = n - 1 ∧ delta = ps then 0
  else if i < ps ∧ delta = -ps then 0
  else if i > n - 1 - ps ∧ delta = ps then n - 1
  else if i + delta < 0 then n - 1
  else if i + delta > n - 1 then 0
  else i + delta

/-! Helper lemmas shared by several claim theorems. -/

/-- Appending a single element and taking the last. -/
theorem lastConcat {α : Type} (l : List α) (a : α) : (l ++ [a]).getLast? = some a := by
  induction l with
  | nil => rfl
  | cons x xs ih =>
      rw [List.cons_append, List.getLast?_cons, ih]
      cases xs <;> simp

/-- Stopping the progress ticker only when it is pending has the same
effect as clearing the flag unconditionally. -/
theorem progress_stop_eq (s : Bar) :
    (if s.progress_timer then { s with progress_timer := false } else s) =
      { s with progress_timer := false } := by
  obtain ⟨bs, idx, psz, bm, tm, pt, zt, wq, w, hs, ev⟩ := s
  cases pt <;> rfl

/-- What buffer_entry changes: it only touches the message buffer (where
the new entry ends up last) and the cursor; the widget, the timers, the
wait queue, the events and the signal flag are untouched. -/
theorem buffer_entry_spec (s : Bar) (e : Entry) (ts : String) (s3 : Bar)
    (h : buffer_entry s e ts = some s3) :
    s3.widget = s.widget ∧ s3.timer_wait_q = s.timer_wait_q ∧
    s3.events = s.events ∧ s3.has_signal = s.has_signal ∧
    s3.timer = s.timer ∧ s3.zero_timer = s.zero_timer ∧
    s3.bufferd_msgs.getLast? = some ⟨e.msg, e.timeout, e.fg, e.bg, e.bold, ts⟩ := by
  unfold buffer_entry at h
  split at h
  · split at h
    · cases h
      refine ⟨rfl, rfl, rfl, rfl, rfl, rfl, ?_⟩
      exact lastConcat _ _
    · cases h
  · cases h
    refine ⟨rfl, rfl, rfl, rfl, rfl, rfl, ?_⟩
    exact lastConcat _ _

/-- What buffer_this_entry guarantees: the new entry is displayed and ends
up last in the buffer; the signal flag is untouched; the events grow only
by clear notifications (never a wait-queue-emptied one); and if no timer
was pending the wait queue is untouched. -/
theorem buffer_this_entry_spec (s : Bar) (e : Entry) (ts : String) (s3 : Bar)
    (h : buffer_this_entry s e ts = some s3) :
    s3.widget = some e.msg ∧
    s3.bufferd_msgs.getLast? = some ⟨e.msg, e.timeout, e.fg, e.bg, e.bold, ts⟩ ∧
    s3.has_signal = s.has_signal ∧
    (∃ d, s3.events = s.events ++ d ∧ Ev.wqEmptied ∉ d) ∧
    (s.timer = false → s3.timer_wait_q = s.timer_wait_q) := by
  unfold buffer_this_entry at h
  obtain ⟨bs, idx, psz, bm, tm, pt, zt, wq, w, hs, ev⟩ := s
  cases w with
  | none =>
      simp only [clearMessage] at h
      split at h
      · split at h
        · split at h <;>
          · obtain ⟨h1, h2, h3, h4, h5, h6, h7⟩ := buffer_entry_spec _ _ _ _ h
            exact ⟨h1, h7, h4, ⟨[], by simpa using h3, by simp⟩, fun _ => h2⟩
        · obtain ⟨h1, h2, h3, h4, h5, h6, h7⟩ := buffer_entry_spec _ _ _ _ h
          exact ⟨h1, h7, h4, ⟨[], by simpa using h3, by simp⟩,
            fun htm => absurd htm (by assumption)⟩
      · obtain ⟨h1, h2, h3, h4, h5, h6, h7⟩ := buffer_entry_spec _ _ _ _ h
        exact ⟨h1, h7, h4, ⟨[], by simpa using h3, by simp⟩, fun _ => h2⟩
  | some msg0 =>
      simp only [clearMessage] at h
      split at h
      · split at h
        · split at h <;>
          · obtain ⟨h1, h2, h3, h4, h5, h6, h7⟩ := buffer_entry_spec _ _ _ _ h
            exact ⟨h1, h7, h4, ⟨[Ev.cleared], by simpa using h3, by simp⟩, fun _ => h2⟩
        · obtain ⟨h1, h2, h3, h4, h5, h6, h7⟩ := buffer_entry_spec _ _ _ _ h
          exact ⟨h1, h7, h4, ⟨[Ev.cleared], by simpa using h3, by simp⟩,
            fun htm => absurd htm (by assumption)⟩
      · obtain ⟨h1, h2, h3, h4, h5, h6, h7⟩ := buffer_entry_spec _ _ _ _ h
        exact ⟨h1, h7, h4, ⟨[Ev.cleared], by simpa using h3, by simp⟩, fun _ => h2⟩

/-! Claim theorems. -/

/-- C1: evaluation at the failing input.  The claim says the capacity
invariant (buffer length at most C, oldest evicted first) holds for every
submit sequence regardless of interleaved Navigator moves.  In the code the
eviction test is `_displayed_msg_idx >= _buffer_size - 1`, a cursor test,
not a length test: after filling a capacity-2 bar and pressing Home (cursor
0), a further submission appends without evicting, giving a buffer of
length 3 with capacity 2. -/
theorem c1_capacity_violated_after_home :
    c1_trace.map (fun s => (getBufferSize s, (s.bufferd_msgs.length : Int))) =
      some (2, 3) := by decide

/-- C4: evaluation at the failing input.  The claim says the cursor always
lies in the range -1 to len-1.  In the code `_buffer_entry` increments
`_displayed_msg_idx` unconditionally even when it evicted instead of
growing the buffer: after three submissions into a capacity-2 bar the
cursor is 2 while the buffer length is 2, so the cursor exceeds len-1 = 1
(and it keeps growing by one per further overflowing submission). -/
theorem c4_cursor_exceeds_range :
    c4_trace.map (fun s => (s.displayed_msg_idx, (s.bufferd_msgs.length : Int))) =
      some (2, 2) := by decide

/-- C5: evaluation at the failing input.  The claim (and the source comment
on DEFAULT_BUFFER_SIZE) says a constructor argument below the built-in
minimum 100 is floor-clamped to 100.  The constructor stores the argument
unchanged: a bar constructed with msg_buffer_size 5 reports buffer size 5,
and six submissions leave only five entries with the first one evicted, so
the effective capacity is 5, not 100. -/
theorem c5_constructor_does_not_clamp :
    getBufferSize (init 5 false) = 5 ∧ DEFAULT_BUFFER_SIZE = 100 ∧
    c5_trace.map (fun s => s.bufferd_msgs.map BufEntry.msg) =
      some [" b", " c", " d", " e", " f"] := by
  refine ⟨rfl, rfl, by decide⟩

/-- C6: evaluation at the failing inputs.  The claim says no operation
panics on an empty buffer and a delete at an index outside 0..len-1 is a
recovered no-op.  The delete-current handler runs
`self._bufferd_msgs.pop(self._displayed_msg_idx)` unguarded: on a fresh bar
this is pop(-1) on an empty list, an uncaught IndexError (modelled `none`),
and with two buffered entries and a cursor of 5, pop(5) equally raises. -/
theorem c6_delete_current_raises :
    delete_current (init 100 false) = none ∧
    delete_current { c6_state with displayed_msg_idx := 5 } = none := by
  refine ⟨rfl, by decide⟩

/-- C2, counterexample: the claim says that when the fixed 1500 ms
zero-timeout timer fires with the wait queue still empty, the displayed
message is cleared.  In `zstate` (a zero-timeout message " x" displayed,
zero-timeout timer pending, wait queue empty) firing the timer with
timed_msg = False, exactly as the source arms it for a zero-timeout
message, returns the state unchanged: the message is still displayed and no
clear notification is emitted. -/
theorem c2_counterexample :
    zstate.widget = some " x" ∧ zstate.zero_timer = true ∧
    zstate.timer_wait_q = [] ∧ zstate.events = [] ∧
    msg_timeout_fired zstate false "t1" = some zstate := by decide

/-- C2, amended: when the zero-timeout timer fires with the wait queue
still empty, nothing is cleared and nothing is displayed or emitted: the
state is returned with only the timer bookkeeping reset (the fixed timer
guarantees only that a non-empty wait queue would drain; the displayed
zero-timeout message stays until replaced). -/
theorem c2_zero_fire_clears_nothing (s : Bar) (ts : String)
    (h : s.timer_wait_q = []) :
    msg_timeout_fired s false ts =
      some { s with timer := false, progress_timer := false } := by
  unfold msg_timeout_fired
  rw [progress_stop_eq]
  simp [h]

/-- C2, witness for the amended theorem. -/
theorem c2_zero_fire_witness :
    zstate.timer_wait_q = [] ∧
    msg_timeout_fired zstate false "t1" =
      some { zstate with timer := false, progress_timer := false } :=
  ⟨rfl, c2_zero_fire_clears_nothing zstate "t1" rfl⟩

/-- C3, counterexample: the claim says submit also enqueues (leaving the
display unchanged) while a zero-timeout message's fixed 1500 ms timer is
pending.  In `zstate` (ActiveZeroTimeout: " x" displayed, zero-timeout
timer pending, main timer None, wait queue empty) a further submission is
admitted immediately: the displayed text becomes " y", the buffer grows to
two entries, and the wait queue stays empty, because the guard in
showMessage tests `self._timer`, which a zero-timeout message never sets. -/
theorem c3_counterexample :
    zstate.widget = some " x" ∧ zstate.zero_timer = true ∧ zstate.timer = false ∧
    (showMessage zstate "y" 0 none none false "t1").map Bar.widget =
      some (some " y") ∧
    (showMessage zstate "y" 0 none none false "t1").map Bar.timer_wait_q =
      some [] ∧
    (showMessage zstate "y" 0 none none false "t1").map
      (fun s => s.bufferd_msgs.length) = some 2 := by decide

/-- C3, amended: only in ActiveTimed (a message displayed with the one-shot
timer pending) does submit enqueue to the wait queue leaving everything
else unchanged; `enqueue_to_wait_q` touches only the wait queue, so the
displayed message, the buffer and the timers are unchanged.  In
ActiveZeroTimeout with an empty wait queue, submit instead admits and
displays the new message immediately, replacing the current one (see the
counterexample). -/
theorem c3_active_timed_enqueues (s : Bar) (m : String) (t : Int)
    (f g : Option String) (b : Bool) (ts : String)
    (hw : s.widget.isSome = true) (ht : s.timer = true) :
    showMessage s m t f g b ts = some (enqueue_to_wait_q s ⟨pad m, t, f, g, b⟩) ∧
    (enqueue_to_wait_q s ⟨pad m, t, f, g, b⟩).widget = s.widget ∧
    (enqueue_to_wait_q s ⟨pad m, t, f, g, b⟩).bufferd_msgs = s.bufferd_msgs ∧
    (enqueue_to_wait_q s ⟨pad m, t, f, g, b⟩).timer = s.timer ∧
    (enqueue_to_wait_q s ⟨pad m, t, f, g, b⟩).zero_timer = s.zero_timer ∧
    (enqueue_to_wait_q s ⟨pad m, t, f, g, b⟩).timer_wait_q =
      s.timer_wait_q ++ [⟨pad m, t, f, g, b⟩] := by
  refine ⟨?_, rfl, rfl, rfl, rfl, rfl⟩
  simp [showMessage, showMessageBody, hw, ht]

/-- C3, witness for the amended theorem: in `tstate` (a 5000 ms timed
message displayed, timer pending) a submission is wait-queued. -/
theorem c3_active_timed_witness :
    tstate.widget.isSome = true ∧ tstate.timer = true ∧
    showMessage tstate "y" 0 none none false "t1" =
      some (enqueue_to_wait_q tstate ⟨pad "y", 0, none, none, false⟩) := by
  refine ⟨rfl, rfl, ?_⟩
  exact (c3_active_timed_enqueues tstate "y" 0 none none false "t1" rfl rfl).1

/-- C8: the delete-all command empties the message buffer, resets the
cursor to -1 and removes the displayed widget, while the wait queue, the
one-shot timer, the zero-timeout timer, the progress ticker and the buffer
size are all left untouched. -/
theorem c8_delete_all_frame (s : Bar) :
    (delete_all s).bufferd_msgs = [] ∧
    (delete_all s).displayed_msg_idx = -1 ∧
    (delete_all s).widget = none ∧
    (delete_all s).timer_wait_q = s.timer_wait_q ∧
    (delete_all s).timer = s.timer ∧
    (delete_all s).zero_timer = s.zero_timer ∧
    (delete_all s).progress_timer = s.progress_timer ∧
    (delete_all s).buffer_size = s.buffer_size := by
  cases h : s.widget <;> simp [delete_all, clearMessage, h]

/-- The cursor resolution of `_move_viewport` computes exactly the rules of
the specification (the two sequential wrap checks of the source coincide
with the ordered wrap rules of the spec). -/
theorem resolve_eq_spec (n ps i delta : Int) :
    resolve_idx n ps i delta = cursorSpec n ps i delta := by
  unfold resolve_idx cursorSpec
  dsimp only
  split_ifs <;> omega

/-- On a non-empty buffer the resolved cursor is always in range. -/
theorem resolve_range (n ps i delta : Int) (hn : 1 ≤ n) :
    0 ≤ resolve_idx n ps i delta ∧ resolve_idx n ps i delta ≤ n - 1 := by
  unfold resolve_idx
  dsimp only
  split_ifs <;> omega

/-- List indexing at an in-range non-negative index succeeds. -/
theorem pyGet_in_range {α : Type} (l : List α) (i : Int)
    (h0 : 0 ≤ i) (h1 : i < l.length) : ∃ a, pyGet l i = some a := by
  unfold pyGet
  have hni : ¬ i < 0 := by omega
  have hlt : i.toNat < l.length := by omega
  simp only [hni, if_false, h0, if_true, if_pos h0]
  rcases List.get?_eq_get hlt with h
  exact ⟨_, h⟩

/-- C7: Navigator move resolution.  On an empty buffer `_move_viewport`
sets the cursor to -1 and nothing else happens.  On a non-empty buffer,
with the cursor in range, page size at least 1 and delta one of -1, +1,
-page, +page, the move succeeds and the new cursor is exactly `cursorSpec`,
the ordered rule list of the claim; the buffer, wait queue and timers are
untouched by the move. -/
theorem c7_move_resolution (s : Bar) (delta : Int)
    (hps : 1 ≤ s.buf_page_size)
    (hdelta : delta = -1 ∨ delta = 1 ∨ delta = -s.buf_page_size ∨ delta = s.buf_page_size) :
    (s.bufferd_msgs = [] → move_viewport s delta = some { s with displayed_msg_idx := -1 }) ∧
    (s.bufferd_msgs ≠ [] → 0 ≤ s.displayed_msg_idx →
      s.displayed_msg_idx ≤ (s.bufferd_msgs.length : Int) - 1 →
      ∃ s2, move_viewport s delta = some s2 ∧
        s2.displayed_msg_idx =
          cursorSpec s.bufferd_msgs.length s.buf_page_size s.displayed_msg_idx delta ∧
        s2.bufferd_msgs = s.bufferd_msgs ∧
        s2.timer_wait_q = s.timer_wait_q ∧
        s2.timer = s.timer ∧ s2.zero_timer = s.zero_timer) := by
  obtain ⟨bs, idx, psz, bm, tm, pt, zt, wq, w, hs, ev⟩ := s
  constructor
  · intro h
    subst h
    simp [move_viewport]
  · intro hne h0 h1
    dsimp only at hne h0 h1
    have hlen : (1 : Int) ≤ bm.length := by
      have := List.length_pos.mpr hne
      omega
    have hne0 : ¬ bm.length = 0 := by omega
    have h1' : idx ≤ (bm.length : Int) - 1 := h1
    obtain ⟨hr0, hr1⟩ := resolve_range bm.length psz idx delta hlen
    obtain ⟨a, ha⟩ := pyGet_in_range bm (resolve_idx bm.length psz idx delta) hr0 (by omega)
    cases w with
    | none =>
        refine ⟨⟨bs, resolve_idx bm.length psz idx delta, psz, bm, tm, pt, zt, wq,
          some a.msg, hs, ev⟩, ?_, resolve_eq_spec bm.length psz idx delta, rfl, rfl, rfl, rfl⟩
        unfold move_viewport
        rw [if_neg hne0]
        unfold display_viewport
        dsimp only [clearMessage]
        rw [ha]
    | some w0 =>
        refine ⟨⟨bs, resolve_idx bm.length psz idx delta, psz, bm, tm, pt, zt, wq,
          some a.msg, hs, ev ++ [Ev.cleared]⟩, ?_,
          resolve_eq_spec bm.length psz idx delta, rfl, rfl, rfl, rfl⟩
        unfold move_viewport
        rw [if_neg hne0]
        unfold display_viewport
        dsimp only [clearMessage]
        rw [ha]

/-- C7, witness: in `c7state` (five entries, cursor 0) moving by -1 wraps
the cursor to the end of the buffer, index 4, as the rules say. -/
theorem c7_witness :
    (move_viewport c7state (-1)).map Bar.displayed_msg_idx =
      some (cursorSpec c7state.bufferd_msgs.length c7state.buf_page_size
        c7state.displayed_msg_idx (-1)) ∧
    (move_viewport c7state (-1)).map Bar.displayed_msg_idx = some 4 := by
  obtain ⟨-, h⟩ := c7_move_resolution c7state (-1) (by decide) (Or.inl rfl)
  obtain ⟨s2, he, hi, -, -, -, -⟩ := h (by decide) (by decide) (by decide)
  rw [he]
  constructor
  · simpa using hi
  · have h4 : s2.displayed_msg_idx = 4 := by rw [hi]; decide
    simp [h4]

/-- The state after the drain in `c9state`: the timer fired, the queued
entry " b" was admitted and displayed, and the wait queue became empty. -/
def c9fired : Bar := (msg_timeout_fired c9state true "t1").getD c9state

/-- C9: wait-queue-emptied notification.  Enqueuing to the wait queue emits
nothing.  When the timer fires (signal configured), the events grow by a
batch that contains the wqEmptied notification exactly once when the drain
empties the queue (the queue held exactly one entry) and zero times
otherwise; and in the emitting case the notification is the last event of
the batch, after the drained entry has already been admitted (it sits last
in the buffer) and begun display (it is the displayed widget). -/
theorem c9_drain_notification :
    (∀ (s : Bar) (e : Entry), (enqueue_to_wait_q s e).events = s.events) ∧
    (∀ (s : Bar) (timed : Bool) (ts : String) (s4 : Bar), s.has_signal = true →
      msg_timeout_fired s timed ts = some s4 →
      ∃ d, s4.events = s.events ++ d ∧
        d.count Ev.wqEmptied = (if s.timer_wait_q.length = 1 then 1 else 0) ∧
        (s.timer_wait_q.length = 1 →
          d.getLast? = some Ev.wqEmptied ∧
          ∃ e, s.timer_wait_q = [e] ∧ s4.widget = some e.msg ∧
            s4.bufferd_msgs.getLast? =
              some ⟨e.msg, e.timeout, e.fg, e.bg, e.bold, ts⟩)) := by
  refine ⟨fun s e => rfl, ?_⟩
  intro s timed ts s4 hsig h
  obtain ⟨bs, idx, psz, bm, tm, pt, zt, wq, w, hs, ev⟩ := s
  dsimp only at hsig ⊢
  subst hsig
  unfold msg_timeout_fired at h
  rw [progress_stop_eq] at h
  dsimp only at h
  cases wq with
  | nil =>
      cases timed with
      | false =>
          simp only [if_neg Bool.false_ne_true] at h
          cases h
          exact ⟨[], by simp, by simp, by simp⟩
      | true =>
          simp only [if_pos rfl] at h
          cases w with
          | none =>
              simp only [clearMessage] at h
              cases h
              exact ⟨[], by simp, by simp, by simp⟩
          | some w0 =>
              simp only [clearMessage] at h
              cases h
              exact ⟨[Ev.cleared], rfl, by simp, by simp⟩
  | cons me rest =>
      dsimp only at h
      rcases hb : buffer_this_entry ⟨bs, idx, psz, bm, false, false, zt, rest, w, true, ev⟩
          me ts with - | s3
      · rw [hb] at h
        dsimp only at h
        exact Option.noConfusion h
      · rw [hb] at h
        dsimp only at h
        obtain ⟨hw3, hlast, hhs, ⟨d1, hev, hno⟩, hqf⟩ :=
          buffer_this_entry_spec _ me ts s3 hb
        have hq3 : s3.timer_wait_q = rest := hqf rfl
        have hhs3 : s3.has_signal = true := hhs
        have hev3 : s3.events = ev ++ d1 := hev
        cases rest with
        | nil =>
            rw [hq3] at h
            simp only [if_pos rfl, hhs3] at h
            cases h
            refine ⟨d1 ++ [Ev.wqEmptied], ?_, ?_, ?_⟩
            · simp [hev3]
            · simp [List.count_append, List.count_eq_zero.mpr hno]
            · intro _
              exact ⟨lastConcat _ _, me, rfl, hw3, hlast⟩
        | cons y ys =>
            rw [hq3] at h
            have hne : y :: ys ≠ [] := List.cons_ne_nil y ys
            rw [if_neg hne] at h
            cases h
            refine ⟨d1, hev3, ?_, ?_⟩
            · have hl : (me :: y :: ys).length = ys.length + 2 := by simp
              rw [hl]
              simp [List.count_eq_zero.mpr hno]
            · intro hlen
              simp at hlen

/-- C9, witness: in `c9state` (timed message active, one queued entry,
signal configured) the firing drains and emits the notification. -/
theorem c9_witness :
    c9state.has_signal = true ∧
    msg_timeout_fired c9state true "t1" = some c9fired ∧
    (∃ d, c9fired.events = c9state.events ++ d ∧
      d.count Ev.wqEmptied = (if c9state.timer_wait_q.length = 1 then 1 else 0) ∧
      (c9state.timer_wait_q.length = 1 →
        d.getLast? = some Ev.wqEmptied ∧
        ∃ e, c9state.timer_wait_q = [e] ∧ c9fired.widget = some e.msg ∧
          c9fired.bufferd_msgs.getLast? =
            some ⟨e.msg, e.timeout, e.fg, e.bg, e.bold, "t1"⟩)) :=
  ⟨rfl, rfl, c9_drain_notification.2 c9state true "t1" c9fired rfl rfl⟩

/-- Membership in an enumerated list gives membership of the element. -/
theorem mem_of_mem_enumFrom {α : Type} (l : List α) (n : Nat) (p : Nat × α)
    (h : p ∈ l.enumFrom n) : p.2 ∈ l := by
  induction l generalizing n with
  | nil => cases h
  | cons x xs ih =>
      cases h with
      | head => exact List.mem_cons_self _ _
      | tail _ h2 => exact List.mem_cons_of_mem _ (ih (n + 1) h2)

/-- Membership in an enumerated list gives membership of the element. -/
theorem mem_of_mem_enum {α : Type} (l : List α) (p : Nat × α)
    (h : p ∈ l.enum) : p.2 ∈ l :=
  mem_of_mem_enumFrom l 0 p h

/-- C10: implicit leading-space padding.  showMessage pads the submitted
text with a single leading space before anything else happens, so the text
that reaches every sink is the padded one: an entry wait-queued while a
timed message is active carries the padded text; an entry wait-queued
behind a non-empty queue likewise; an admitted entry is displayed with the
padded text (and currentMessage returns it) and is buffered with the padded
text; and every exported line embeds the buffered (padded) text verbatim. -/
theorem c10_leading_space_padding (s : Bar) (m : String) (t : Int)
    (f g : Option String) (b : Bool) (ts : String) :
    showMessage s m t f g b ts = showMessageBody s ⟨" " ++ m, t, f, g, b⟩ ts ∧
    ((s.widget.isSome = true ∧ s.timer = true) →
      showMessage s m t f g b ts = some (enqueue_to_wait_q s ⟨" " ++ m, t, f, g, b⟩) ∧
      (enqueue_to_wait_q s ⟨" " ++ m, t, f, g, b⟩).timer_wait_q.getLast? =
        some ⟨" " ++ m, t, f, g, b⟩) ∧
    (¬(s.widget.isSome = true ∧ s.timer = true) → s.timer_wait_q ≠ [] →
      showMessage s m t f g b ts = some (enqueue_to_wait_q s ⟨" " ++ m, t, f, g, b⟩)) ∧
    (¬(s.widget.isSome = true ∧ s.timer = true) → s.timer_wait_q = [] →
      ∀ s2, showMessage s m t f g b ts = some s2 →
        s2.widget = some (" " ++ m) ∧ currentMessage s2 = " " ++ m ∧
        s2.bufferd_msgs.getLast? = some ⟨" " ++ m, t, f, g, b, ts⟩) ∧
    (∀ ln ∈ save_message_buffer_lines s,
      ∃ e ∈ s.bufferd_msgs, ∃ pre suf, ln = pre ++ (e.msg ++ suf)) := by
  refine ⟨rfl, ?_, ?_, ?_, ?_⟩
  · rintro ⟨hw, ht⟩
    constructor
    · simp [showMessage, showMessageBody, pad, hw, ht]
    · exact lastConcat _ _
  · intro hneg hq
    simp only [showMessage, showMessageBody, pad]
    rw [if_neg hneg, if_neg hq]
  · intro hneg hq s2 hs2
    simp only [showMessage, showMessageBody, pad] at hs2
    rw [if_neg hneg, if_pos hq] at hs2
    obtain ⟨hw2, hlast2, -, -, -⟩ := buffer_this_entry_spec _ _ _ _ hs2
    refine ⟨hw2, ?_, hlast2⟩
    simp [currentMessage, hw2]
  · intro ln hln
    unfold save_message_buffer_lines at hln
    obtain ⟨p, hp, rfl⟩ := List.mem_map.1 hln
    refine ⟨p.2, mem_of_mem_enum _ _ hp,
      linePre ((toString s.bufferd_msgs.length).length + 1) p.1, lineSuf p.2, ?_⟩
    simp [mkLine, String.append_assoc]

/-- C10, witness: submitting "hello" with timeout 0 to a fresh bar displays
and buffers " hello", and currentMessage returns " hello". -/
theorem c10_witness :
    ¬((init 100 false).widget.isSome = true ∧ (init 100 false).timer = true) ∧
    (init 100 false).timer_wait_q = [] ∧
    showMessage (init 100 false) "hello" 0 none none false "tw" = some c10w ∧
    c10w.widget = some (" " ++ "hello") ∧ currentMessage c10w = " " ++ "hello" ∧
    c10w.bufferd_msgs.getLast? = some ⟨" " ++ "hello", 0, none, none, false, "tw"⟩ := by
  refine ⟨by decide, rfl, rfl, ?_⟩
  exact (c10_leading_space_padding (init 100 false) "hello" 0 none none false
    "tw").2.2.2.1 (by decide) rfl c10w rfl
